import Mathlib

/-!
CI_Uebung02: request handlers over the product and rating stores.

A shallow embedding of `app.go` and `rating.go`.  The handlers are functions from a
request to the response they write together with the list of statements they sent to
the database handle.  The database handle, the JSON decoder and `strconv.Atoi` are the
collaborators of the handlers: the handle and the decoder are arbitrary functions, and
`Atoi` is the decimal parser of the Go standard library for 64-bit `int`, with its fast
path and its overflow rule.
-/

namespace CIUebung02

/-! ## Errors, values and the database handle -/

/-- Go `error` values seen by the handlers: the sentinel `sql.ErrNoRows`, which the
handlers recognise by identity, and any other error, known by its message. -/
inductive error where
  | ErrNoRows
  | other (msg : String)
deriving DecidableEq, Repr

/-- The method `Error()` of an error value. -/
def error.Error : error → String
  | .ErrNoRows => "sql: no rows in result set"
  | .other msg => msg

/-- The two failures of `strconv.Atoi`. -/
inductive NumError where
  | ErrSyntax
  | ErrRange
deriving DecidableEq, Repr

/-- The largest `uint64`. -/
def maxUint64 : Nat := 2 ^ 64 - 1

/-- The decimal digit a byte stands for, when it is one of `'0'` to `'9'`.  A Go string
is a sequence of bytes; a byte of a character outside ASCII is never a digit or a sign,
so reading characters and reading bytes reject at the same place. -/
def digit (c : Char) : Option Nat :=
  if c.isDigit then some (c.toNat - 48) else none

/-- The loop of `strconv.ParseUint` for base 10 and 64 bits, from the accumulated value
`n` (a `uint64`): a byte that is not a digit is a syntax error with value 0; when
`n * 10` or `n * 10 + d` overflows, the result is the largest value with a range error,
before any later byte is looked at. -/
def parseUintLoop : List Char → Nat → Nat × Option NumError
  | [], n => (n, none)
  | c :: cs, n =>
    match digit c with
    | none => (0, some .ErrSyntax)
    | some d =>
      if maxUint64 / 10 + 1 ≤ n then (maxUint64, some .ErrRange)
      else
        let n10 := (n * 10) % 2 ^ 64
        let n1 := (n10 + d) % 2 ^ 64
        if n1 < n10 ∨ maxUint64 < n1 then (maxUint64, some .ErrRange)
        else parseUintLoop cs n1

/-- Go `strconv.ParseUint(s, 10, 0)` with a 64-bit `int`. -/
def ParseUint (s : List Char) : Nat × Option NumError :=
  if s.isEmpty then (0, some .ErrSyntax) else parseUintLoop s 0

/-- Go `strconv.ParseInt(s, 10, 0)` with a 64-bit `int`: the sign is picked off, the rest
goes through `ParseUint`; an error other than the range error gives 0; an unsigned value
of `2^63` or more (more than `2^63` after a minus sign) gives the nearest bound with a
range error. -/
def ParseInt (s : List Char) : Int × Option NumError :=
  match s with
  | [] => (0, some .ErrSyntax)
  | c :: t =>
    let neg : Bool := c == '-'
    let s1 := if c == '+' || c == '-' then t else c :: t
    match ParseUint s1 with
    | (un, err) =>
      if err ≠ none ∧ err ≠ some .ErrRange then (0, err)
      else if !neg && 2 ^ 63 ≤ un then ((2 : Int) ^ 63 - 1, some .ErrRange)
      else if neg && 2 ^ 63 < un then (-(2 : Int) ^ 63, some .ErrRange)
      else (if neg then -(un : Int) else (un : Int), none)

/-- The digit loop of the fast path of `strconv.Atoi`: `none` at a byte that is not a
digit. -/
def atoiLoop : List Char → Int → Option Int
  | [], n => some n
  | c :: cs, n =>
    match digit c with
    | none => none
    | some d => atoiLoop cs (n * 10 + (d : Int))

/-- The fast path of `strconv.Atoi`, taken for a string of 1 to 18 bytes. -/
def atoiFast (s : List Char) : Int × Option NumError :=
  match s with
  | [] => (0, some .ErrSyntax)
  | c :: t =>
    let signed : Bool := c == '-' || c == '+'
    let s1 := if signed then t else c :: t
    if signed && s1.isEmpty then (0, some .ErrSyntax)
    else
      match atoiLoop s1 0 with
      | none => (0, some .ErrSyntax)
      | some n => (if c == '-' then -n else n, none)

/-- Go `strconv.Atoi` with a 64-bit `int`: the fast path for a string of 1 to 18 bytes,
`ParseInt(s, 10, 0)` for every other string. -/
def Atoi (s : String) : Int × Option NumError :=
  let sLen := s.utf8ByteSize
  if 0 < sLen ∧ sLen < 19 then atoiFast s.toList else ParseInt s.toList

/-- A value exchanged with the database driver: a statement argument or a column. -/
inductive Value where
  | int (n : Int)
  | text (s : String)
  | dec (q : Rat)
  | null
deriving DecidableEq, Repr

/-- The three entry points of `*sql.DB` the data-access code uses. -/
inductive Method where
  | QueryRow
  | Query
  | Exec
deriving DecidableEq, Repr

/-- One statement sent to the database handle. -/
structure Call where
  method : Method
  stmt : String
  args : List Value
deriving DecidableEq, Repr

/-- The result set of a query (`*sql.Rows`): the rows that successive `Next` calls
deliver, the value of `Err()` once `Next` has returned false, and the value of
`Close()`. -/
structure Rows where
  items : List (List Value)
  err : Option error
  closeErr : Option error

/-- The `sql.Result` of an `Exec`. -/
structure Result where
  RowsAffected : Nat

/-- The database handle `*sql.DB`, seen from one request: what the store answers to
each statement.  `QueryRow` never fails by itself in Go; the error it keeps for `Scan`
is the `error` case here. -/
structure DB where
  QueryRow : String → List Value → Except error Rows
  Query : String → List Value → Except error Rows
  Exec : String → List Value → Except error Result

/-- The method `(*sql.Row).Scan`: the pending error of the query; else, when there is no
first row, `Err()` of the rows or `sql.ErrNoRows`; else the error of converting the first
row into the destination; else the error of `Close()`.  The destination is returned as
`Scan` leaves it (unchanged when the conversion fails). -/
def Row.Scan {α : Type} (row : Except error Rows) (dest : α)
    (conv : α → List Value → Except error α) : α × Option error :=
  match row with
  | .error e => (dest, some e)
  | .ok rows =>
    match rows.items with
    | [] =>
      match rows.err with
      | some e => (dest, some e)
      | none => (dest, some .ErrNoRows)
    | v :: _ =>
      match conv dest v with
      | .error e => (dest, some e)
      | .ok d => (d, rows.closeErr)

/-- A Go slice: `none` is the nil slice, `some []` the empty non-nil slice. -/
abbrev Slice (α : Type) := Option (List α)

/-! ## rating.go -/

/-- The struct `rating`. -/
structure rating where
  RatingId : Int
  ProductId : Int
  Rating : Int
  Text : String
deriving DecidableEq, Repr

/-- The call `Scan(&rating.RatingId)`: one integer column. -/
def scanRatingId (r : rating) : List Value → Except error rating
  | [.int n] => .ok { r with RatingId := n }
  | _ => .error (.other "sql: Scan error")

/-- The call `Scan(&rating.ProductId, &rating.Rating, &rating.Text)`. -/
def scanRatingFields (r : rating) : List Value → Except error rating
  | [.int p, .int n, .text t] => .ok { r with ProductId := p, Rating := n, Text := t }
  | _ => .error (.other "sql: Scan error")

/-- The call `Scan(&r.RatingId, &r.ProductId, &r.Rating, &r.Text)` into a fresh `rating`. -/
def scanRating : List Value → Except error rating
  | [.int i, .int p, .int n, .text t] => .ok ⟨i, p, n, t⟩
  | _ => .error (.other "sql: Scan error")

/-- The statement of `createRating` in `rating.go`. -/
def createRatingStmt : String :=
  "INSERT INTO ratings(product_id, rating, info) VALUES ($1, $2, $3) RETURNING rating_id"

/-- The statement of `getRating` in `rating.go`. -/
def getRatingStmt : String :=
  "SELECT product_id, rating, info FROM ratings WHERE rating_id=$1"

/-- The statement of `getRatingsForProduct` in `rating.go`. -/
def getRatingsForProductStmt : String :=
  "SELECT rating_id, product_id, rating, info FROM ratings WHERE product_id=$1 LIMIT $2 OFFSET $3"

/-- The statement of `updateRating` in `rating.go`. -/
def updateRatingStmt : String :=
  "UPDATE ratings SET product_id=$1, rating=$2, info=$3 WHERE rating_id=$4"

/-- The statement of `deleteRating` in `rating.go`. -/
def deleteRatingStmt : String :=
  "DELETE FROM ratings WHERE rating_id=$1"

/-- The method `createRating` of `rating.go`: the receiver after the call, the error
returned, and the statements sent. -/
def rating.createRating (r : rating) (db : DB) : (rating × Option error) × List Call :=
  let args := [Value.int r.ProductId, Value.int r.Rating, Value.text r.Text]
  (Row.Scan (db.QueryRow createRatingStmt args) r scanRatingId,
    [⟨.QueryRow, createRatingStmt, args⟩])

/-- The method `getRating` of `rating.go`. -/
def rating.getRating (r : rating) (db : DB) : (rating × Option error) × List Call :=
  let args := [Value.int r.RatingId]
  (Row.Scan (db.QueryRow getRatingStmt args) r scanRatingFields,
    [⟨.QueryRow, getRatingStmt, args⟩])

/-- The loop `for rows.Next() { ... }` of `getRatingsForProduct`: every row is scanned
and appended; a row that fails to scan ends the function with `nil` and the error.
`rows.Err()` is not consulted when the rows end. -/
def scanRatings : List (List Value) → List rating → Slice rating × Option error
  | [], ratings => (some ratings, none)
  | row :: rest, ratings =>
    match scanRating row with
    | .error e => (none, some e)
    | .ok r => scanRatings rest (ratings ++ [r])

/-- The function `getRatingsForProduct` of `rating.go`. -/
def getRatingsForProduct (db : DB) (productId start count : Int) :
    (Slice rating × Option error) × List Call :=
  let args := [Value.int productId, Value.int count, Value.int start]
  let log : List Call := [⟨.Query, getRatingsForProductStmt, args⟩]
  match db.Query getRatingsForProductStmt args with
  | .error e => ((none, some e), log)
  | .ok rows => (scanRatings rows.items [], log)

/-- The method `updateRating` of `rating.go`. -/
def rating.updateRating (r : rating) (db : DB) : Option error × List Call :=
  let args := [Value.int r.ProductId, Value.int r.Rating, Value.text r.Text, Value.int r.RatingId]
  let log : List Call := [⟨.Exec, updateRatingStmt, args⟩]
  match db.Exec updateRatingStmt args with
  | .error e => (some e, log)
  | .ok _ => (none, log)

/-- The method `deleteRating` of `rating.go`. -/
def rating.deleteRating (r : rating) (db : DB) : Option error × List Call :=
  let args := [Value.int r.RatingId]
  let log : List Call := [⟨.Exec, deleteRatingStmt, args⟩]
  match db.Exec deleteRatingStmt args with
  | .error e => (some e, log)
  | .ok _ => (none, log)

/-! ## product.go -/

/-- Modelled from the spec: `product.go` is not among the sources.  The struct `product`
of the data model, `{id: integer, name: string, price: decimal}`; the handlers only carry
the price. -/
structure product where
  ID : Int
  Name : String
  Price : Rat
deriving DecidableEq, Repr

/-- Modelled from the spec: `product.go` is not among the sources.  Reading the
store-assigned id of `create(p)` into `p.id`. -/
def scanProductId (p : product) : List Value → Except error product
  | [.int n] => .ok { p with ID := n }
  | _ => .error (.other "sql: Scan error")

/-- Modelled from the spec: `product.go` is not among the sources.  Reading the row of
`get(id)` into name and price. -/
def scanProductFields (p : product) : List Value → Except error product
  | [.text n, .dec q] => .ok { p with Name := n, Price := q }
  | _ => .error (.other "sql: Scan error")

/-- Modelled from the spec: `product.go` is not among the sources.  Reading a row of
`list(start, count)` into a fresh `product`. -/
def scanProduct : List Value → Except error product
  | [.int i, .text n, .dec q] => .ok ⟨i, n, q⟩
  | _ => .error (.other "sql: Scan error")

/-- Modelled from the spec: `product.go` is not among the sources.  The text of
the insert of `create(p)` over the table `products(id, name, price)`. -/
def createProductStmt : String :=
  "INSERT INTO products(name, price) VALUES ($1, $2) RETURNING id"

/-- Modelled from the spec: `product.go` is not among the sources.  The text of
the lookup of `get(id)` over the table `products(id, name, price)`. -/
def getProductStmt : String :=
  "SELECT name, price FROM products WHERE id=$1"

/-- Modelled from the spec: `product.go` is not among the sources.  The text of
the query of `list(start, count)`, with `LIMIT count OFFSET start` over the table `products(id, name, price)`. -/
def getProductsStmt : String :=
  "SELECT id, name, price FROM products LIMIT $1 OFFSET $2"

/-- Modelled from the spec: `product.go` is not among the sources.  The text of
the statement of `update(p)` over the table `products(id, name, price)`. -/
def updateProductStmt : String :=
  "UPDATE products SET name=$1, price=$2 WHERE id=$3"

/-- Modelled from the spec: `product.go` is not among the sources.  The text of
the statement of `delete(id)` over the table `products(id, name, price)`. -/
def deleteProductStmt : String :=
  "DELETE FROM products WHERE id=$1"

/-- Modelled from the spec: `product.go` is not among the sources.  `create(p)` inserts
`{name, price}` and writes the store-assigned id back into `p.id`. -/
def product.createProduct (p : product) (db : DB) : (product × Option error) × List Call :=
  let args := [Value.text p.Name, Value.dec p.Price]
  (Row.Scan (db.QueryRow createProductStmt args) p scanProductId,
    [⟨.QueryRow, createProductStmt, args⟩])

/-- Modelled from the spec: `product.go` is not among the sources.  `get(id)` fetches one
row by id and fails with the no-rows error when no row matches. -/
def product.getProduct (p : product) (db : DB) : (product × Option error) × List Call :=
  let args := [Value.int p.ID]
  (Row.Scan (db.QueryRow getProductStmt args) p scanProductFields,
    [⟨.QueryRow, getProductStmt, args⟩])

/-- Modelled from the spec: `product.go` is not among the sources.  The row loop of
`list(start, count)`, as in `getRatingsForProduct`. -/
def scanProducts : List (List Value) → List product → Slice product × Option error
  | [], products => (some products, none)
  | row :: rest, products =>
    match scanProduct row with
    | .error e => (none, some e)
    | .ok p => scanProducts rest (products ++ [p])

/-- Modelled from the spec: `product.go` is not among the sources.  `list(start, count)`
returns the products with `LIMIT count OFFSET start`, an empty sequence when no rows
match. -/
def getProducts (db : DB) (start count : Int) : (Slice product × Option error) × List Call :=
  let args := [Value.int count, Value.int start]
  let log : List Call := [⟨.Query, getProductsStmt, args⟩]
  match db.Query getProductsStmt args with
  | .error e => ((none, some e), log)
  | .ok rows => (scanProducts rows.items [], log)

/-- Modelled from the spec: `product.go` is not among the sources.  `update(p)` overwrites
name and price of the row matching `p.id`; no rows affected is not an error. -/
def product.updateProduct (p : product) (db : DB) : Option error × List Call :=
  let args := [Value.text p.Name, Value.dec p.Price, Value.int p.ID]
  let log : List Call := [⟨.Exec, updateProductStmt, args⟩]
  match db.Exec updateProductStmt args with
  | .error e => (some e, log)
  | .ok _ => (none, log)

/-- Modelled from the spec: `product.go` is not among the sources.  `delete(id)` removes
the row matching id; no rows affected is not an error. -/
def product.deleteProduct (p : product) (db : DB) : Option error × List Call :=
  let args := [Value.int p.ID]
  let log : List Call := [⟨.Exec, deleteProductStmt, args⟩]
  match db.Exec deleteProductStmt args with
  | .error e => (some e, log)
  | .ok _ => (none, log)

/-! ## Requests, responses and JSON -/

/-- A JSON document. -/
inductive JSON where
  | null
  | int (n : Int)
  | dec (q : Rat)
  | str (s : String)
  | arr (xs : List JSON)
  | obj (kvs : List (String × JSON))

/-- The payloads the handlers hand to `respondWithJSON`. -/
inductive Payload where
  | strings (m : List (String × String))
  | product (p : product)
  | products (ps : Slice product)
  | rating (r : rating)
  | ratings (rs : Slice rating)

/-- The JSON object of a `product`, by its field tags. -/
def product.toJSON (p : product) : JSON :=
  .obj [("id", .int p.ID), ("name", .str p.Name), ("price", .dec p.Price)]

/-- The JSON object of a `rating`, by its field tags. -/
def rating.toJSON (r : rating) : JSON :=
  .obj [("rating_id", .int r.RatingId), ("product_id", .int r.ProductId),
    ("rating", .int r.Rating), ("rating_text", .str r.Text)]

/-- The document `json.Marshal` produces: a nil slice is `null`, a non-nil slice an array. -/
def Marshal : Payload → JSON
  | .strings m => .obj (m.map fun kv => (kv.1, JSON.str kv.2))
  | .product p => p.toJSON
  | .products none => .null
  | .products (some ps) => .arr (ps.map product.toJSON)
  | .rating r => r.toJSON
  | .ratings none => .null
  | .ratings (some rs) => .arr (rs.map rating.toJSON)

/-- What a handler writes to the `http.ResponseWriter`. -/
structure Response where
  Code : Nat
  Header : List (String × String)
  Body : JSON

/-- The part of `*http.Request` the handlers read: the route variables (`mux.Vars`), the
form values (`FormValue`) and the body. -/
structure Request where
  Vars : List (String × String)
  Form : List (String × String)
  Body : String

/-- Indexing a Go `map[string]string`, as in `vars["id"]`: the empty string when the key
is absent. -/
def index (m : List (String × String)) (key : String) : String :=
  (m.lookup key).getD ""

/-- The method `r.FormValue(key)`: the empty string when the key is absent. -/
def Request.FormValue (r : Request) (key : String) : String :=
  index r.Form key

/-- The decoder `json.NewDecoder(r.Body).Decode(&v)` for the two entity shapes, from the
body to the decoded entity or the decoding error. -/
structure Decoder where
  product : String → Except error product
  rating : String → Except error rating

def StatusOK : Nat := 200
def StatusCreated : Nat := 201
def StatusBadRequest : Nat := 400
def StatusNotFound : Nat := 404
def StatusInternalServerError : Nat := 500

/-! ## app.go -/

/-- The struct `App`; the router is not part of the model. -/
structure App where
  DB : DB
  json : Decoder

/-- The function `respondWithJSON`: the status code, the content type and the marshalled
payload. -/
def respondWithJSON (code : Nat) (payload : Payload) : Response :=
  { Code := code, Header := [("Content-Type", "application/json")], Body := Marshal payload }

/-- The function `respondWithError`: the message under the key `error`. -/
def respondWithError (code : Nat) (message : String) : Response :=
  respondWithJSON code (.strings [("error", message)])

/-- The clamp of the two list handlers: `if count > 10 || count < 1 { count = 10 }`. -/
def clampCount (count : Int) : Int :=
  if count > 10 ∨ count < 1 then 10 else count

/-- The clamp of the two list handlers: `if start < 0 { start = 0 }`. -/
def clampStart (start : Int) : Int :=
  if start < 0 then 0 else start

/-- The handler `getProduct` of `app.go`: the response written and the statements sent. -/
def App.getProduct (a : App) (r : Request) : Response × List Call :=
  match Atoi (index r.Vars "id") with
  | (_, some _) => (respondWithError StatusBadRequest "Invalid product ID", [])
  | (id, none) =>
    match (product.mk id "" 0).getProduct a.DB with
    | ((_, some err), log) =>
      if err = error.ErrNoRows then (respondWithError StatusNotFound "Product not found", log)
      else (respondWithError StatusInternalServerError err.Error, log)
    | ((p, none), log) => (respondWithJSON StatusOK (.product p), log)

/-- The handler `getProducts` of `app.go`: the response written and the statements sent. -/
def App.getProducts (a : App) (r : Request) : Response × List Call :=
  let count := clampCount (Atoi (r.FormValue "count")).1
  let start := clampStart (Atoi (r.FormValue "start")).1
  match CIUebung02.getProducts a.DB start count with
  | ((_, some err), log) => (respondWithError StatusInternalServerError err.Error, log)
  | ((products, none), log) => (respondWithJSON StatusOK (.products products), log)

/-- The handler `createProduct` of `app.go`: the response written and the statements sent. -/
def App.createProduct (a : App) (r : Request) : Response × List Call :=
  match a.json.product r.Body with
  | .error _ => (respondWithError StatusBadRequest "Invalid request payload", [])
  | .ok p =>
    match p.createProduct a.DB with
    | ((_, some err), log) => (respondWithError StatusInternalServerError err.Error, log)
    | ((p, none), log) => (respondWithJSON StatusCreated (.product p), log)

/-- The handler `updateProduct` of `app.go`: the response written and the statements sent. -/
def App.updateProduct (a : App) (r : Request) : Response × List Call :=
  match Atoi (index r.Vars "id") with
  | (_, some _) => (respondWithError StatusBadRequest "Invalid product ID", [])
  | (id, none) =>
    match a.json.product r.Body with
    | .error _ => (respondWithError StatusBadRequest "Invalid request payload", [])
    | .ok p =>
      let p := { p with ID := id }
      match p.updateProduct a.DB with
      | (some err, log) => (respondWithError StatusInternalServerError err.Error, log)
      | (none, log) => (respondWithJSON StatusOK (.product p), log)

/-- The handler `deleteProduct` of `app.go`: the response written and the statements sent. -/
def App.deleteProduct (a : App) (r : Request) : Response × List Call :=
  match Atoi (index r.Vars "id") with
  | (_, some _) => (respondWithError StatusBadRequest "Invalid Product ID", [])
  | (id, none) =>
    match (product.mk id "" 0).deleteProduct a.DB with
    | (some err, log) => (respondWithError StatusInternalServerError err.Error, log)
    | (none, log) => (respondWithJSON StatusOK (.strings [("result", "success")]), log)

/-- The handler `getRating` of `app.go`: the response written and the statements sent. -/
def App.getRating (a : App) (req : Request) : Response × List Call :=
  match Atoi (index req.Vars "rating_id") with
  | (_, some _) => (respondWithError StatusBadRequest "Invalid rating ID", [])
  | (id, none) =>
    match (rating.mk id 0 0 "").getRating a.DB with
    | ((_, some err), log) =>
      if err = error.ErrNoRows then (respondWithError StatusNotFound "Rating not found", log)
      else (respondWithError StatusInternalServerError err.Error, log)
    | ((r, none), log) => (respondWithJSON StatusOK (.rating r), log)

/-- The handler `getRatingsForProduct`: the error of parsing `product_id` is assigned and
then overwritten by the result of the data-access call, so only the parsed value is used. -/
def App.getRatingsForProduct (a : App) (req : Request) : Response × List Call :=
  let count := (Atoi (req.FormValue "count")).1
  let start := (Atoi (req.FormValue "start")).1
  let productId := (Atoi (index req.Vars "product_id")).1
  let count := clampCount count
  let start := clampStart start
  match CIUebung02.getRatingsForProduct a.DB productId start count with
  | ((_, some err), log) => (respondWithError StatusInternalServerError err.Error, log)
  | ((ratings, none), log) => (respondWithJSON StatusOK (.ratings ratings), log)

/-- The message by which `createRating` recognises a foreign-key violation. -/
def foreignKeyMessage : String :=
  "pq: insert or update on table \"ratings\" violates foreign key constraint \"ratings_product_id_fkey\""

/-- The handler `createRating` of `app.go`: the response written and the statements sent. -/
def App.createRating (a : App) (req : Request) : Response × List Call :=
  match a.json.rating req.Body with
  | .error _ => (respondWithError StatusBadRequest "Invalid request payload", [])
  | .ok r =>
    match r.createRating a.DB with
    | ((_, some err), log) =>
      if err.Error = foreignKeyMessage then
        (respondWithError StatusBadRequest "No product with the specified id exists!", log)
      else (respondWithError StatusInternalServerError err.Error, log)
    | ((r, none), log) => (respondWithJSON StatusCreated (.rating r), log)

/-- The handler `updateRating` of `app.go`: the response written and the statements sent. -/
def App.updateRating (a : App) (req : Request) : Response × List Call :=
  match Atoi (index req.Vars "rating_id") with
  | (_, some _) => (respondWithError StatusBadRequest "Invalid rating ID", [])
  | (id, none) =>
    match a.json.rating req.Body with
    | .error _ => (respondWithError StatusBadRequest "Invalid request payload", [])
    | .ok r =>
      let r := { r with RatingId := id }
      match r.updateRating a.DB with
      | (some err, log) => (respondWithError StatusInternalServerError err.Error, log)
      | (none, log) => (respondWithJSON StatusOK (.rating r), log)

/-- The handler `deleteRating` of `app.go`: the response written and the statements sent. -/
def App.deleteRating (a : App) (req : Request) : Response × List Call :=
  match Atoi (index req.Vars "rating_id") with
  | (_, some _) => (respondWithError StatusBadRequest "Invalid rating ID", [])
  | (id, none) =>
    match (rating.mk id 0 0 "").deleteRating a.DB with
    | (some err, log) => (respondWithError StatusInternalServerError err.Error, log)
    | (none, log) => (respondWithJSON StatusOK (.strings [("result", "success")]), log)

/-! ## Sample collaborators -/

/-- A store without rows: every query succeeds with an empty result set and every
statement affects no row. -/
def emptyDB : DB where
  QueryRow := fun _ _ => .ok ⟨[], none, none⟩
  Query := fun _ _ => .ok ⟨[], none, none⟩
  Exec := fun _ _ => .ok ⟨0⟩

/-- A store in which the product referenced by a new rating does not exist: the insert is
rejected with the foreign-key message of the driver. -/
def noProductDB : DB where
  QueryRow := fun _ _ => .error (.other
    "pq: insert or update on table \"ratings\" violates foreign key constraint \"ratings_product_id_fkey\"")
  Query := fun _ _ => .ok ⟨[], none, none⟩
  Exec := fun _ _ => .ok ⟨0⟩

/-- A store that assigns the id 7 to every inserted row. -/
def insertDB : DB where
  QueryRow := fun _ _ => .ok ⟨[[.int 7]], none, none⟩
  Query := fun _ _ => .ok ⟨[], none, none⟩
  Exec := fun _ _ => .ok ⟨1⟩

/-- A store whose connection breaks while the rows of a list are read: the query
succeeds and delivers one rating, then `Next` returns false and `Err()` is the failure. -/
def brokenRowsDB : DB where
  QueryRow := fun _ _ => .error (.other "driver: bad connection")
  Query := fun _ _ =>
    .ok ⟨[[.int 1, .int 1, .int 7, .text "ok"]], some (.other "driver: bad connection"), none⟩
  Exec := fun _ _ => .error (.other "driver: bad connection")

/-- A decoder that accepts only the empty object, as the zero value of the entity. -/
def zeroDecoder : Decoder where
  product := fun s =>
    if s = "\x7b\x7d" then .ok ⟨0, "", 0⟩ else .error (.other "unexpected end of JSON input")
  rating := fun s =>
    if s = "\x7b\x7d" then .ok ⟨0, 0, 0, ""⟩ else .error (.other "unexpected end of JSON input")

/-- A product body that carries the id 99. -/
def productBody : String :=
  "\x7b\"id\":99,\"name\":\"test product - updated name\",\"price\":11\x7d"

/-- A rating body that carries the rating id 99. -/
def ratingBody : String :=
  "\x7b\"rating_id\":99,\"product_id\":2,\"rating\":0,\"rating_text\":\"Some updated rating text\"\x7d"

/-- A decoder that knows the two sample bodies. -/
def sampleDecoder : Decoder where
  product := fun s =>
    if s = productBody then .ok ⟨99, "test product - updated name", 11⟩
    else .error (.other "invalid character")
  rating := fun s =>
    if s = ratingBody then .ok ⟨99, 2, 0, "Some updated rating text"⟩
    else .error (.other "invalid character")

/-! ## Statements sent by the data-access functions -/

theorem getProducts_log (db : DB) (start count : Int) :
    (getProducts db start count).2 = [⟨.Query, getProductsStmt, [.int count, .int start]⟩] := by
  unfold getProducts
  simp only []
  split <;> rfl

theorem getRatingsForProduct_log (db : DB) (productId start count : Int) :
    (getRatingsForProduct db productId start count).2 =
      [⟨.Query, getRatingsForProductStmt, [.int productId, .int count, .int start]⟩] := by
  unfold getRatingsForProduct
  simp only []
  split <;> rfl

/-- The handler `getProducts` writes what the data-access result at the clamped values
determines, and sends the statements of that data-access call. -/
theorem getProducts_handler_log (a : App) (r : Request) :
    (a.getProducts r).2 =
      (CIUebung02.getProducts a.DB (clampStart (Atoi (r.FormValue "start")).1)
        (clampCount (Atoi (r.FormValue "count")).1)).2 := by
  unfold App.getProducts
  simp only []
  split <;> simp_all

theorem getRatingsForProduct_handler_log (a : App) (req : Request) :
    (a.getRatingsForProduct req).2 =
      (CIUebung02.getRatingsForProduct a.DB (Atoi (index req.Vars "product_id")).1
        (clampStart (Atoi (req.FormValue "start")).1)
        (clampCount (Atoi (req.FormValue "count")).1)).2 := by
  unfold App.getRatingsForProduct
  simp only []
  split <;> simp_all

theorem clampCount_eq (count : Int) :
    clampCount count = if 1 ≤ count ∧ count ≤ 10 then count else 10 := by
  unfold clampCount
  split_ifs <;> omega

theorem clampStart_eq (start : Int) :
    clampStart start = if 0 ≤ start then start else 0 := by
  unfold clampStart
  split_ifs <;> omega

theorem parseUintLoop_syntax (cs : List Char) (n : Nat)
    (h : (parseUintLoop cs n).2 = some NumError.ErrSyntax) : (parseUintLoop cs n).1 = 0 := by
  induction cs generalizing n with
  | nil => simp [parseUintLoop] at h
  | cons c cs ih =>
    unfold parseUintLoop at h ⊢
    split at h
    · simp_all
    · simp only [] at h ⊢
      split_ifs at h ⊢
      · simp at h
      · simp at h
      · exact ih _ h

theorem atoiFast_syntax (cs : List Char) (h : (atoiFast cs).2 = some NumError.ErrSyntax) :
    (atoiFast cs).1 = 0 := by
  cases cs with
  | nil => rfl
  | cons c t =>
    simp only [atoiFast] at h ⊢
    generalize (if (c == '-' || c == '+') = true then t else c :: t) = s1 at h ⊢
    by_cases hs : ((c == '-' || c == '+') && s1.isEmpty) = true
    · simp [hs]
    · simp only [hs] at h ⊢
      cases hl : atoiLoop s1 0 with
      | none => simp
      | some n => rw [hl] at h; simp at h

theorem ParseInt_syntax (cs : List Char) (h : (ParseInt cs).2 = some NumError.ErrSyntax) :
    (ParseInt cs).1 = 0 := by
  unfold ParseInt at h ⊢
  split at h
  · rfl
  · simp only [] at h ⊢
    split_ifs at h ⊢ <;> simp_all

theorem Atoi_syntax_value (s : String) (h : (Atoi s).2 = some NumError.ErrSyntax) :
    (Atoi s).1 = 0 := by
  unfold Atoi at h ⊢
  simp only [] at h ⊢
  split_ifs at h ⊢
  · exact atoiFast_syntax _ h
  · exact ParseInt_syntax _ h

/-- The handler `getProducts` depends on the request only through the clamped values. -/
theorem getProducts_handler_congr (a : App) (r₁ r₂ : Request)
    (hc : clampCount (Atoi (r₁.FormValue "count")).1 = clampCount (Atoi (r₂.FormValue "count")).1)
    (hs : clampStart (Atoi (r₁.FormValue "start")).1 = clampStart (Atoi (r₂.FormValue "start")).1) :
    a.getProducts r₁ = a.getProducts r₂ := by
  unfold App.getProducts
  simp only [hc, hs]

/-- The handler `getRatingsForProduct` depends on the request only through the clamped
values and the parsed product id. -/
theorem getRatingsForProduct_handler_congr (a : App) (r₁ r₂ : Request)
    (hp : (Atoi (index r₁.Vars "product_id")).1 = (Atoi (index r₂.Vars "product_id")).1)
    (hc : clampCount (Atoi (r₁.FormValue "count")).1 = clampCount (Atoi (r₂.FormValue "count")).1)
    (hs : clampStart (Atoi (r₁.FormValue "start")).1 = clampStart (Atoi (r₂.FormValue "start")).1) :
    a.getRatingsForProduct r₁ = a.getRatingsForProduct r₂ := by
  unfold App.getRatingsForProduct
  simp only [hp, hc, hs]

theorem index_nil (k : String) : index [] k = "" := rfl

theorem index_cons_self (k v : String) (m : List (String × String)) :
    index ((k, v) :: m) k = v := by
  simp [index, List.lookup]

theorem index_cons_ne (k k' v : String) (m : List (String × String)) (h : k ≠ k') :
    index ((k', v) :: m) k = index m k := by
  have hb : (k == k') = false := by simpa using h
  simp [index, List.lookup, hb]

/-! ## What `Atoi` returns for a value that is not a number -/

/-- A numeric value, in the words of the claims: an optional sign followed by one or more
decimal digits. -/
def isNumeric (s : String) : Bool :=
  match s.toList with
  | [] => false
  | c :: t =>
    let ds := if c == '+' || c == '-' then t else c :: t
    !ds.isEmpty && ds.all Char.isDigit

theorem digit_isSome (c : Char) (d : Nat) (h : digit c = some d) : c.isDigit = true := by
  unfold digit at h
  split_ifs at h with hc
  exact hc

theorem atoiLoop_all (cs : List Char) (n m : Int) (h : atoiLoop cs n = some m) :
    cs.all Char.isDigit = true := by
  induction cs generalizing n with
  | nil => rfl
  | cons c cs ih =>
    unfold atoiLoop at h
    split at h
    · simp at h
    · rename_i d hd
      simp [digit_isSome c d hd, ih _ h]

theorem parseUintLoop_all (cs : List Char) (n : Nat) (h : (parseUintLoop cs n).2 = none) :
    cs.all Char.isDigit = true := by
  induction cs generalizing n with
  | nil => rfl
  | cons c cs ih =>
    unfold parseUintLoop at h
    split at h
    · simp at h
    · rename_i d hd
      simp only [] at h
      split_ifs at h
      all_goals first
        | (simp at h; done)
        | simp [digit_isSome c d hd, ih _ h]

theorem parseUintLoop_range (cs : List Char) (n : Nat)
    (h : (parseUintLoop cs n).2 = some NumError.ErrRange) :
    (parseUintLoop cs n).1 = maxUint64 := by
  induction cs generalizing n with
  | nil => simp [parseUintLoop] at h
  | cons c cs ih =>
    unfold parseUintLoop at h ⊢
    split at h
    · simp at h
    · simp only [] at h ⊢
      split_ifs at h ⊢
      · rfl
      · rfl
      · exact ih _ h

theorem atoiLoop_none (cs : List Char) (h : cs.all Char.isDigit = false) :
    atoiLoop cs 0 = none := by
  cases hl : atoiLoop cs 0 with
  | none => rfl
  | some m =>
    have hall := atoiLoop_all cs 0 m hl
    rw [hall] at h
    exact absurd h (by decide)

theorem atoiFast_error (c : Char) (t : List Char)
    (h : (!(if (c == '+' || c == '-') = true then t else c :: t).isEmpty &&
      (if (c == '+' || c == '-') = true then t else c :: t).all Char.isDigit) = false) :
    (atoiFast (c :: t)).2 ≠ none := by
  have hor : (c == '-' || c == '+') = (c == '+' || c == '-') := Bool.or_comm _ _
  simp only [atoiFast, hor]
  by_cases hc : (c == '+' || c == '-') = true
  · simp only [hc, if_true, Bool.true_and] at h ⊢
    cases t with
    | nil => simp
    | cons x xs =>
      have hall : (x :: xs).all Char.isDigit = false := by simpa using h
      simp [atoiLoop_none _ hall]
  · simp only [hc, if_false, Bool.false_and] at h ⊢
    have hall : (c :: t).all Char.isDigit = false := by simpa using h
    simp [atoiLoop_none _ hall]

theorem ParseInt_error (c : Char) (t : List Char)
    (h : (!(if (c == '+' || c == '-') = true then t else c :: t).isEmpty &&
      (if (c == '+' || c == '-') = true then t else c :: t).all Char.isDigit) = false) :
    (ParseInt (c :: t)).2 ≠ none := by
  simp only [ParseInt]
  generalize (if (c == '+' || c == '-') = true then t else c :: t) = s1 at h ⊢
  have hu : (ParseUint s1).2 ≠ none := by
    unfold ParseUint
    cases s1 with
    | nil => simp
    | cons x xs =>
      intro hn
      have hall := parseUintLoop_all (x :: xs) 0 (by simpa using hn)
      rw [hall] at h
      simp at h
  have hr : (ParseUint s1).2 = some NumError.ErrRange → (ParseUint s1).1 = maxUint64 := by
    unfold ParseUint
    cases s1 with
    | nil => simp
    | cons x xs => simpa using parseUintLoop_range (x :: xs) 0
  rcases hp : ParseUint s1 with ⟨un, err⟩
  rw [hp] at hu hr
  simp only [] at hu hr ⊢
  cases err with
  | none => exact absurd rfl hu
  | some e =>
    cases e with
    | ErrSyntax => simp
    | ErrRange =>
      have hun : un = maxUint64 := hr rfl
      subst hun
      by_cases hneg : (c == '-') = true
      · simp [hneg, maxUint64]
      · simp [hneg, maxUint64]

/-- A value that is not a number never parses without an error. -/
theorem Atoi_error_of_not_numeric (s : String) (h : isNumeric s = false) :
    (Atoi s).2 ≠ none := by
  unfold isNumeric at h
  unfold Atoi
  simp only []
  cases hl : s.toList with
  | nil =>
    split_ifs <;> simp [atoiFast, ParseInt]
  | cons c t =>
    rw [hl] at h
    simp only [] at h
    split_ifs
    · exact atoiFast_error c t h
    · exact ParseInt_error c t h

theorem atoiFast_no_range (cs : List Char) : (atoiFast cs).2 ≠ some NumError.ErrRange := by
  cases cs with
  | nil => simp [atoiFast]
  | cons c t =>
    simp only [atoiFast]
    generalize (if (c == '-' || c == '+') = true then t else c :: t) = s1
    by_cases hs : ((c == '-' || c == '+') && s1.isEmpty) = true
    · simp [hs]
    · simp only [hs]
      cases atoiLoop s1 0 <;> simp

theorem ParseInt_range_value (cs : List Char)
    (h : (ParseInt cs).2 = some NumError.ErrRange) :
    (ParseInt cs).1 = 2 ^ 63 - 1 ∨ (ParseInt cs).1 = -2 ^ 63 := by
  cases cs with
  | nil => simp [ParseInt] at h
  | cons c t =>
    simp only [ParseInt] at h ⊢
    generalize ParseUint (if (c == '+' || c == '-') = true then t else c :: t) = r at h ⊢
    obtain ⟨un, err⟩ := r
    simp only [] at h ⊢
    split_ifs at h ⊢ with h1 h2 h3
    · exact absurd h h1.2
    · left; rfl
    · right; rfl

/-- A range error of `Atoi` comes with the nearest bound of `int64` as value. -/
theorem Atoi_range_value (s : String) (h : (Atoi s).2 = some NumError.ErrRange) :
    (Atoi s).1 = 2 ^ 63 - 1 ∨ (Atoi s).1 = -2 ^ 63 := by
  unfold Atoi at h ⊢
  simp only [] at h ⊢
  split_ifs at h ⊢
  · exact absurd h (atoiFast_no_range _)
  · exact ParseInt_range_value _ h

/-! ## The pagination clamp as the specification words it -/

/-- The count the store is to be queried with: `count` inside `[1, 10]`, else 10. -/
def specCount (count : Int) : Int :=
  if 1 ≤ count ∧ count ≤ 10 then count else 10

/-- The start the store is to be queried with: `start` when not negative, else 0. -/
def specStart (start : Int) : Int :=
  if 0 ≤ start then start else 0

/-! ## Claims -/

/-- C1, as amended: in `getProducts` and `getRatingsForProduct` the store is queried with
the count `count` when `1 ≤ count ≤ 10` and 10 otherwise, and with the start `start` when
`0 ≤ start` and 0 otherwise, where `count` and `start` are the values `strconv.Atoi`
returns with its error discarded; every start that is not negative reaches the store as
it is, up to `2^63 - 1`; an absent value parses as 0, and a value that is not a number
parses as 0 or, when `Atoi` reports it out of range, as `2^63 - 1` or `-2^63`;
`count=50` and `count=0` behave as `count=10`, `start=-5` behaves as `start=0`, and an
absent count gives 10. -/
theorem pagination_clamp (a : App) (req : Request) :
    (a.getProducts req).2 =
        [⟨.Query, getProductsStmt,
          [.int (specCount (Atoi (req.FormValue "count")).1),
           .int (specStart (Atoi (req.FormValue "start")).1)]⟩] ∧
    (a.getRatingsForProduct req).2 =
        [⟨.Query, getRatingsForProductStmt,
          [.int (Atoi (index req.Vars "product_id")).1,
           .int (specCount (Atoi (req.FormValue "count")).1),
           .int (specStart (Atoi (req.FormValue "start")).1)]⟩] ∧
    (0 ≤ (Atoi (req.FormValue "start")).1 →
      (a.getProducts req).2 =
        [⟨.Query, getProductsStmt,
          [.int (specCount (Atoi (req.FormValue "count")).1),
           .int (Atoi (req.FormValue "start")).1]⟩] ∧
      (a.getRatingsForProduct req).2 =
        [⟨.Query, getRatingsForProductStmt,
          [.int (Atoi (index req.Vars "product_id")).1,
           .int (specCount (Atoi (req.FormValue "count")).1),
           .int (Atoi (req.FormValue "start")).1]⟩]) ∧
    (a.getProducts ⟨req.Vars, [("start", "9223372036854775807")], req.Body⟩).2 =
      [⟨.Query, getProductsStmt, [.int 10, .int 9223372036854775807]⟩] ∧
    (a.getRatingsForProduct ⟨[("product_id", "1")], [("start", "9223372036854775807")],
        req.Body⟩).2 =
      [⟨.Query, getRatingsForProductStmt, [.int 1, .int 10, .int 9223372036854775807]⟩] ∧
    (∀ s : String, (Atoi s).2 = some NumError.ErrSyntax → (Atoi s).1 = 0) ∧
    (∀ s : String, isNumeric s = false →
      Atoi s = (0, some NumError.ErrSyntax) ∨
      ((Atoi s).2 = some NumError.ErrRange ∧
        ((Atoi s).1 = 2 ^ 63 - 1 ∨ (Atoi s).1 = -2 ^ 63))) ∧
    (Atoi (Request.FormValue ⟨req.Vars, [], req.Body⟩ "count") = (0, some NumError.ErrSyntax)) ∧
    (∀ s : String,
      a.getProducts ⟨req.Vars, [("count", "50"), ("start", s)], req.Body⟩ =
        a.getProducts ⟨req.Vars, [("count", "10"), ("start", s)], req.Body⟩ ∧
      a.getProducts ⟨req.Vars, [("count", "0"), ("start", s)], req.Body⟩ =
        a.getProducts ⟨req.Vars, [("count", "10"), ("start", s)], req.Body⟩ ∧
      a.getProducts ⟨req.Vars, [("start", s)], req.Body⟩ =
        a.getProducts ⟨req.Vars, [("count", "10"), ("start", s)], req.Body⟩ ∧
      a.getProducts ⟨req.Vars, [("start", "-5"), ("count", s)], req.Body⟩ =
        a.getProducts ⟨req.Vars, [("start", "0"), ("count", s)], req.Body⟩ ∧
      a.getRatingsForProduct ⟨req.Vars, [("count", "50"), ("start", s)], req.Body⟩ =
        a.getRatingsForProduct ⟨req.Vars, [("count", "10"), ("start", s)], req.Body⟩ ∧
      a.getRatingsForProduct ⟨req.Vars, [("count", "0"), ("start", s)], req.Body⟩ =
        a.getRatingsForProduct ⟨req.Vars, [("count", "10"), ("start", s)], req.Body⟩ ∧
      a.getRatingsForProduct ⟨req.Vars, [("start", s)], req.Body⟩ =
        a.getRatingsForProduct ⟨req.Vars, [("count", "10"), ("start", s)], req.Body⟩ ∧
      a.getRatingsForProduct ⟨req.Vars, [("start", "-5"), ("count", s)], req.Body⟩ =
        a.getRatingsForProduct ⟨req.Vars, [("start", "0"), ("count", s)], req.Body⟩) := by
  have h50 : Atoi "50" = (50, none) := by decide
  have h10 : Atoi "10" = (10, none) := by decide
  have h1 : Atoi "1" = (1, none) := by decide
  have h0 : Atoi "0" = (0, none) := by decide
  have hm5 : Atoi "-5" = (-5, none) := by decide
  have he : Atoi "" = (0, some NumError.ErrSyntax) := by decide
  have hmax : Atoi "9223372036854775807" = (9223372036854775807, none) := by decide
  have hsc : ("start" : String) ≠ "count" := by decide
  have hcs : ("count" : String) ≠ "start" := by decide
  have c50 : clampCount 50 = clampCount 10 := by decide
  have c0 : clampCount 0 = clampCount 10 := by decide
  have sm5 : clampStart (-5) = clampStart 0 := by decide
  have hP : ∀ r : Request, (a.getProducts r).2 =
      [⟨.Query, getProductsStmt,
        [.int (specCount (Atoi (r.FormValue "count")).1),
         .int (specStart (Atoi (r.FormValue "start")).1)]⟩] := by
    intro r
    rw [getProducts_handler_log, getProducts_log, clampCount_eq, clampStart_eq]; rfl
  have hR : ∀ r : Request, (a.getRatingsForProduct r).2 =
      [⟨.Query, getRatingsForProductStmt,
        [.int (Atoi (index r.Vars "product_id")).1,
         .int (specCount (Atoi (r.FormValue "count")).1),
         .int (specStart (Atoi (r.FormValue "start")).1)]⟩] := by
    intro r
    rw [getRatingsForProduct_handler_log, getRatingsForProduct_log, clampCount_eq,
      clampStart_eq]; rfl
  refine ⟨hP req, hR req, ?_, ?_, ?_, Atoi_syntax_value, ?_, ?_, ?_⟩
  · intro hn
    have hs : specStart (Atoi (req.FormValue "start")).1 = (Atoi (req.FormValue "start")).1 := by
      simp [specStart, hn]
    refine ⟨?_, ?_⟩
    · rw [hP req, hs]
    · rw [hR req, hs]
  · rw [hP]
    simp [Request.FormValue, index_cons_self, index_cons_ne, index_nil, hcs, hmax, he]
    decide
  · rw [hR]
    simp [Request.FormValue, index_cons_self, index_cons_ne, index_nil, hcs, hmax, he, h1]
    decide
  · intro s hs
    have herr := Atoi_error_of_not_numeric s hs
    cases hv : (Atoi s).2 with
    | none => exact absurd hv herr
    | some e =>
      cases e with
      | ErrSyntax =>
        left
        exact Prod.ext (Atoi_syntax_value s hv) hv
      | ErrRange =>
        right
        exact ⟨rfl, Atoi_range_value s hv⟩
  · simp [Request.FormValue, index, he]
  · intro s
    refine ⟨?_, ?_, ?_, ?_, ?_, ?_, ?_, ?_⟩
    · apply getProducts_handler_congr <;>
        simp [Request.FormValue, index_cons_self, index_cons_ne, hsc, h50, h10, c50]
    · apply getProducts_handler_congr <;>
        simp [Request.FormValue, index_cons_self, index_cons_ne, hsc, h0, h10, c0]
    · apply getProducts_handler_congr <;>
        simp [Request.FormValue, index_cons_self, index_cons_ne, hsc, hcs, h10, he, c0, index_nil]
    · apply getProducts_handler_congr <;>
        simp [Request.FormValue, index_cons_self, index_cons_ne, hsc, hcs, hm5, h0, sm5]
    · apply getRatingsForProduct_handler_congr <;>
        simp [Request.FormValue, index_cons_self, index_cons_ne, hsc, h50, h10, c50]
    · apply getRatingsForProduct_handler_congr <;>
        simp [Request.FormValue, index_cons_self, index_cons_ne, hsc, h0, h10, c0]
    · apply getRatingsForProduct_handler_congr <;>
        simp [Request.FormValue, index_cons_self, index_cons_ne, hsc, hcs, h10, he, c0, index_nil]
    · apply getRatingsForProduct_handler_congr <;>
        simp [Request.FormValue, index_cons_self, index_cons_ne, hsc, hcs, hm5, h0, sm5]

theorem pagination_clamp_witness :
    (Atoi "abc").2 = some NumError.ErrSyntax ∧ (Atoi "abc").1 = 0 ∧
    (App.getProducts ⟨emptyDB, zeroDecoder⟩ ⟨[], [("count", "50"), ("start", "-5")], ""⟩).2 =
      [⟨.Query, getProductsStmt, [.int 10, .int 0]⟩] ∧
    (0 ≤ (Atoi "7").1 ∧
      (App.getProducts ⟨emptyDB, zeroDecoder⟩ ⟨[], [("start", "7")], ""⟩).2 =
        [⟨.Query, getProductsStmt, [.int 10, .int 7]⟩]) ∧
    (isNumeric "12x" = false ∧
      (Atoi "12x" = (0, some NumError.ErrSyntax) ∨
        ((Atoi "12x").2 = some NumError.ErrRange ∧
          ((Atoi "12x").1 = 2 ^ 63 - 1 ∨ (Atoi "12x").1 = -2 ^ 63)))) :=
  ⟨by decide,
   (pagination_clamp ⟨emptyDB, zeroDecoder⟩ ⟨[], [("count", "50"), ("start", "-5")], ""⟩).2.2.2.2.2.1
     "abc" (by decide),
   by
    have h := (pagination_clamp ⟨emptyDB, zeroDecoder⟩
      ⟨[], [("count", "50"), ("start", "-5")], ""⟩).1
    rw [h]; decide,
   ⟨by decide, by
    have h := ((pagination_clamp ⟨emptyDB, zeroDecoder⟩ ⟨[], [("start", "7")], ""⟩).2.2.1
      (by decide)).1
    rw [h]; decide⟩,
   ⟨by decide,
    (pagination_clamp ⟨emptyDB, zeroDecoder⟩ ⟨[], [], ""⟩).2.2.2.2.2.2.1 "12x" (by decide)⟩⟩

/-- C1, the claim as first stated fails: the value `99999999999999999999x` is not a
number, yet `Atoi` returns `2^63 - 1` for it (its leading digits overflow before the `x`
is reached), and both list handlers query the store with that start, not with 0. -/
theorem pagination_clamp_non_numeric_start :
    isNumeric "99999999999999999999x" = false ∧
    Atoi "99999999999999999999x" = (9223372036854775807, some NumError.ErrRange) ∧
    ¬ (∀ s : String, isNumeric s = false → (Atoi s).1 = 0) ∧
    (App.getProducts ⟨emptyDB, zeroDecoder⟩
        ⟨[], [("start", "99999999999999999999x")], ""⟩).2 =
      [⟨.Query, getProductsStmt, [.int 10, .int 9223372036854775807]⟩] ∧
    (App.getRatingsForProduct ⟨emptyDB, zeroDecoder⟩
        ⟨[("product_id", "1")], [("start", "99999999999999999999x")], ""⟩).2 =
      [⟨.Query, getRatingsForProductStmt, [.int 1, .int 10, .int 9223372036854775807]⟩] ∧
    (App.getProducts ⟨emptyDB, zeroDecoder⟩
        ⟨[], [("start", "99999999999999999999x")], ""⟩).2 ≠
      [⟨.Query, getProductsStmt, [.int 10, .int 0]⟩] := by
  refine ⟨by decide, by decide, ?_, by decide, by decide, by decide⟩
  intro h
  exact absurd (h "99999999999999999999x" (by decide)) (by decide)

/-- C2: for a path id that does not parse, `deleteProduct` answers 400 without calling the
store, but with the body `{error: "Invalid Product ID"}`, which is not the body
`{error: "Invalid product ID"}` that `getProduct` and `updateProduct` write for the same
id; the three rating handlers answer 400 with `{error: "Invalid rating ID"}` without
calling the store. -/
theorem invalid_path_id (a : App) (preq rreq : Request)
    (hp : (Atoi (index preq.Vars "id")).2 ≠ none)
    (hr : (Atoi (index rreq.Vars "rating_id")).2 ≠ none) :
    a.deleteProduct preq = (respondWithError StatusBadRequest "Invalid Product ID", []) ∧
    (a.deleteProduct preq).1 ≠ respondWithError StatusBadRequest "Invalid product ID" ∧
    a.getProduct preq = (respondWithError StatusBadRequest "Invalid product ID", []) ∧
    a.updateProduct preq = (respondWithError StatusBadRequest "Invalid product ID", []) ∧
    a.getRating rreq = (respondWithError StatusBadRequest "Invalid rating ID", []) ∧
    a.updateRating rreq = (respondWithError StatusBadRequest "Invalid rating ID", []) ∧
    a.deleteRating rreq = (respondWithError StatusBadRequest "Invalid rating ID", []) := by
  have hd : a.deleteProduct preq =
      (respondWithError StatusBadRequest "Invalid Product ID", []) := by
    unfold App.deleteProduct
    split
    · rfl
    · rename_i h; rw [h] at hp; exact absurd rfl hp
  refine ⟨hd, ?_, ?_, ?_, ?_, ?_, ?_⟩
  · rw [hd]
    simp [respondWithError, respondWithJSON, Marshal]
  · unfold App.getProduct
    split
    · rfl
    · rename_i h; rw [h] at hp; exact absurd rfl hp
  · unfold App.updateProduct
    split
    · rfl
    · rename_i h; rw [h] at hp; exact absurd rfl hp
  · unfold App.getRating
    split
    · rfl
    · rename_i h; rw [h] at hr; exact absurd rfl hr
  · unfold App.updateRating
    split
    · rfl
    · rename_i h; rw [h] at hr; exact absurd rfl hr
  · unfold App.deleteRating
    split
    · rfl
    · rename_i h; rw [h] at hr; exact absurd rfl hr

theorem invalid_path_id_witness :
    (Atoi "99999999999999999999").2 ≠ none ∧
    App.deleteProduct ⟨emptyDB, zeroDecoder⟩ ⟨[("id", "99999999999999999999")], [], ""⟩ =
      (respondWithError StatusBadRequest "Invalid Product ID", []) ∧
    App.deleteRating ⟨emptyDB, zeroDecoder⟩ ⟨[("rating_id", "99999999999999999999")], [], ""⟩ =
      (respondWithError StatusBadRequest "Invalid rating ID", []) :=
  ⟨by decide,
   (invalid_path_id ⟨emptyDB, zeroDecoder⟩ ⟨[("id", "99999999999999999999")], [], ""⟩
      ⟨[("rating_id", "99999999999999999999")], [], ""⟩ (by decide) (by decide)).1,
   (invalid_path_id ⟨emptyDB, zeroDecoder⟩ ⟨[("id", "99999999999999999999")], [], ""⟩
      ⟨[("rating_id", "99999999999999999999")], [], ""⟩ (by decide) (by decide)).2.2.2.2.2.2⟩

/-- C3: on the request `GET /ratings/99999999999999999999`, whose product id does not
parse (it is out of range), `getRatingsForProduct` queries the store with the product id
`2^63 - 1`, count 10 and start 0, and answers with 200 or 500, not with 400. -/
theorem getRatingsForProduct_invalid_id (a : App) :
    (Atoi "99999999999999999999").2 = some NumError.ErrRange ∧
    (a.getRatingsForProduct ⟨[("product_id", "99999999999999999999")], [], ""⟩).2 =
      [⟨.Query, getRatingsForProductStmt, [.int 9223372036854775807, .int 10, .int 0]⟩] ∧
    ((a.getRatingsForProduct ⟨[("product_id", "99999999999999999999")], [], ""⟩).1.Code =
        StatusOK ∨
      (a.getRatingsForProduct ⟨[("product_id", "99999999999999999999")], [], ""⟩).1.Code =
        StatusInternalServerError) ∧
    (a.getRatingsForProduct ⟨[("product_id", "99999999999999999999")], [], ""⟩).1.Code ≠
      StatusBadRequest := by
  have hq : Atoi "99999999999999999999" = (9223372036854775807, some NumError.ErrRange) := by
    decide
  have he : Atoi "" = (0, some NumError.ErrSyntax) := by decide
  have hcode : (a.getRatingsForProduct ⟨[("product_id", "99999999999999999999")], [], ""⟩).1.Code =
        StatusOK ∨
      (a.getRatingsForProduct ⟨[("product_id", "99999999999999999999")], [], ""⟩).1.Code =
        StatusInternalServerError := by
    unfold App.getRatingsForProduct
    simp only []
    split
    · right; rfl
    · left; rfl
  refine ⟨by rw [hq], ?_, hcode, ?_⟩
  · rw [getRatingsForProduct_handler_log, getRatingsForProduct_log]
    simp [Request.FormValue, index_cons_self, index_nil, hq, he]
    decide
  · rcases hcode with h | h <;> rw [h] <;> decide

/-- C4: for a path id that parses, `getProduct` and `getRating` answer 404 exactly when the
data-access get returns the no-rows error, and the body is then
`{error: "Product not found"}`, respectively `{error: "Rating not found"}`. -/
theorem get_not_found (a : App) (preq rreq : Request) (pid rid : Int)
    (hp : Atoi (index preq.Vars "id") = (pid, none))
    (hr : Atoi (index rreq.Vars "rating_id") = (rid, none)) :
    (((product.mk pid "" 0).getProduct a.DB).1.2 = some error.ErrNoRows →
      (a.getProduct preq).1 = respondWithError StatusNotFound "Product not found") ∧
    ((a.getProduct preq).1.Code = StatusNotFound ↔
      ((product.mk pid "" 0).getProduct a.DB).1.2 = some error.ErrNoRows) ∧
    (((rating.mk rid 0 0 "").getRating a.DB).1.2 = some error.ErrNoRows →
      (a.getRating rreq).1 = respondWithError StatusNotFound "Rating not found") ∧
    ((a.getRating rreq).1.Code = StatusNotFound ↔
      ((rating.mk rid 0 0 "").getRating a.DB).1.2 = some error.ErrNoRows) := by
  have hcodes : StatusInternalServerError ≠ StatusNotFound ∧ StatusOK ≠ StatusNotFound := by
    decide
  refine ⟨?_, ?_, ?_, ?_⟩
  · intro h
    unfold App.getProduct
    rw [hp]
    simp only []
    split
    · rename_i err log heq
      rw [heq] at h
      simp only [Option.some.injEq] at h
      simp [h]
    · rename_i p log heq
      rw [heq] at h
      simp at h
  · unfold App.getProduct
    rw [hp]
    simp only []
    split
    · rename_i err log heq
      rw [heq]
      by_cases he : err = error.ErrNoRows
      · simp [he, respondWithError, respondWithJSON]
      · simp [he, respondWithError, respondWithJSON, hcodes.1]
    · rename_i p log heq
      rw [heq]
      simp [respondWithJSON, hcodes.2]
  · intro h
    unfold App.getRating
    rw [hr]
    simp only []
    split
    · rename_i err log heq
      rw [heq] at h
      simp only [Option.some.injEq] at h
      simp [h]
    · rename_i p log heq
      rw [heq] at h
      simp at h
  · unfold App.getRating
    rw [hr]
    simp only []
    split
    · rename_i err log heq
      rw [heq]
      by_cases he : err = error.ErrNoRows
      · simp [he, respondWithError, respondWithJSON]
      · simp [he, respondWithError, respondWithJSON, hcodes.1]
    · rename_i p log heq
      rw [heq]
      simp [respondWithJSON, hcodes.2]

theorem get_not_found_witness :
    ((rating.mk 123 0 0 "").getRating emptyDB).1.2 = some error.ErrNoRows ∧
    (App.getRating ⟨emptyDB, zeroDecoder⟩ ⟨[("rating_id", "123")], [], ""⟩).1 =
      respondWithError StatusNotFound "Rating not found" ∧
    (App.getProduct ⟨emptyDB, zeroDecoder⟩ ⟨[("id", "11")], [], ""⟩).1 =
      respondWithError StatusNotFound "Product not found" :=
  ⟨by decide,
   (get_not_found ⟨emptyDB, zeroDecoder⟩ ⟨[("id", "11")], [], ""⟩
      ⟨[("rating_id", "123")], [], ""⟩ 11 123 (by decide) (by decide)).2.2.1 (by decide),
   (get_not_found ⟨emptyDB, zeroDecoder⟩ ⟨[("id", "11")], [], ""⟩
      ⟨[("rating_id", "123")], [], ""⟩ 11 123 (by decide) (by decide)).1 (by decide)⟩

/-- C5: when the body decodes and the insert of `createRating` is rejected with the
foreign-key violation of the driver, the handler answers 400 with the body
`{error: "No product with the specified id exists!"}`, and neither 201 nor 500. -/
theorem createRating_foreign_key (a : App) (req : Request) (r : rating) (e : error)
    (hd : a.json.rating req.Body = .ok r)
    (he : (r.createRating a.DB).1.2 = some e)
    (hfk : e.Error = foreignKeyMessage) :
    (a.createRating req).1 =
      respondWithError StatusBadRequest "No product with the specified id exists!" ∧
    (a.createRating req).1.Code = 400 ∧
    (a.createRating req).1.Body =
      JSON.obj [("error", JSON.str "No product with the specified id exists!")] ∧
    (a.createRating req).1.Code ≠ StatusCreated ∧
    (a.createRating req).1.Code ≠ StatusInternalServerError := by
  have hresp : (a.createRating req).1 =
      respondWithError StatusBadRequest "No product with the specified id exists!" := by
    unfold App.createRating
    rw [hd]
    simp only []
    split
    · rename_i err log heq
      rw [heq] at he
      simp only [Option.some.injEq] at he
      subst he
      simp [hfk]
    · rename_i r' log heq
      rw [heq] at he
      simp at he
  rw [hresp]
  refine ⟨rfl, rfl, rfl, ?_, ?_⟩ <;> decide

theorem createRating_foreign_key_witness :
    ((rating.mk 0 0 0 "").createRating noProductDB).1.2 = some (error.other foreignKeyMessage) ∧
    (App.createRating ⟨noProductDB, zeroDecoder⟩ ⟨[], [], "\x7b\x7d"⟩).1 =
      respondWithError StatusBadRequest "No product with the specified id exists!" :=
  ⟨by decide,
   (createRating_foreign_key ⟨noProductDB, zeroDecoder⟩ ⟨[], [], "\x7b\x7d"⟩ ⟨0, 0, 0, ""⟩
      (error.other foreignKeyMessage) (by rfl) (by decide) (by decide)).1⟩

/-- C6: for a path id `n` that parses and a body that decodes to `b`, `updateProduct` and
`updateRating` pass to the store update the entity with id `n` and the other fields of
`b`, and a 200 response carries that same entity, whatever id `b` had. -/
theorem update_path_id_overrides (a : App) (preq rreq : Request) (n m : Int)
    (p : product) (r : rating)
    (hn : Atoi (index preq.Vars "id") = (n, none))
    (hp : a.json.product preq.Body = .ok p)
    (hm : Atoi (index rreq.Vars "rating_id") = (m, none))
    (hr : a.json.rating rreq.Body = .ok r) :
    (a.updateProduct preq).2 =
      [⟨.Exec, updateProductStmt, [.text p.Name, .dec p.Price, .int n]⟩] ∧
    (a.updateProduct preq).2 = ((product.mk n p.Name p.Price).updateProduct a.DB).2 ∧
    (((product.mk n p.Name p.Price).updateProduct a.DB).1 = none →
      (a.updateProduct preq).1 = respondWithJSON StatusOK (.product ⟨n, p.Name, p.Price⟩)) ∧
    ((a.updateProduct preq).1.Code = StatusOK →
      (a.updateProduct preq).1.Body =
        JSON.obj [("id", .int n), ("name", .str p.Name), ("price", .dec p.Price)]) ∧
    (a.updateRating rreq).2 =
      [⟨.Exec, updateRatingStmt, [.int r.ProductId, .int r.Rating, .text r.Text, .int m]⟩] ∧
    (a.updateRating rreq).2 = ((rating.mk m r.ProductId r.Rating r.Text).updateRating a.DB).2 ∧
    (((rating.mk m r.ProductId r.Rating r.Text).updateRating a.DB).1 = none →
      (a.updateRating rreq).1 =
        respondWithJSON StatusOK (.rating ⟨m, r.ProductId, r.Rating, r.Text⟩)) ∧
    ((a.updateRating rreq).1.Code = StatusOK →
      (a.updateRating rreq).1.Body =
        JSON.obj [("rating_id", .int m), ("product_id", .int r.ProductId),
          ("rating", .int r.Rating), ("rating_text", .str r.Text)]) := by
  have hcode : StatusInternalServerError ≠ StatusOK := by decide
  have hP : a.updateProduct preq =
      match (product.mk n p.Name p.Price).updateProduct a.DB with
      | (some err, log) => (respondWithError StatusInternalServerError err.Error, log)
      | (none, log) => (respondWithJSON StatusOK (.product ⟨n, p.Name, p.Price⟩), log) := by
    unfold App.updateProduct
    rw [hn]
    simp only [hp]
  have hR : a.updateRating rreq =
      match (rating.mk m r.ProductId r.Rating r.Text).updateRating a.DB with
      | (some err, log) => (respondWithError StatusInternalServerError err.Error, log)
      | (none, log) =>
        (respondWithJSON StatusOK (.rating ⟨m, r.ProductId, r.Rating, r.Text⟩), log) := by
    unfold App.updateRating
    rw [hm]
    simp only [hr]
  have hPlog : ((product.mk n p.Name p.Price).updateProduct a.DB).2 =
      [⟨.Exec, updateProductStmt, [.text p.Name, .dec p.Price, .int n]⟩] := by
    unfold product.updateProduct
    simp only []
    split <;> rfl
  have hRlog : ((rating.mk m r.ProductId r.Rating r.Text).updateRating a.DB).2 =
      [⟨.Exec, updateRatingStmt, [.int r.ProductId, .int r.Rating, .text r.Text, .int m]⟩] := by
    unfold rating.updateRating
    simp only []
    split <;> rfl
  have hP2 : (a.updateProduct preq).2 = ((product.mk n p.Name p.Price).updateProduct a.DB).2 := by
    rw [hP]; split <;> simp_all
  have hR2 : (a.updateRating rreq).2 =
      ((rating.mk m r.ProductId r.Rating r.Text).updateRating a.DB).2 := by
    rw [hR]; split <;> simp_all
  refine ⟨hP2.trans hPlog, hP2, ?_, ?_, hR2.trans hRlog, hR2, ?_, ?_⟩
  · intro h
    rw [hP]
    split
    · rename_i err log heq; rw [heq] at h; simp at h
    · rfl
  · rw [hP]
    split
    · intro h; exact absurd h hcode
    · intro _; rfl
  · intro h
    rw [hR]
    split
    · rename_i err log heq; rw [heq] at h; simp at h
    · rfl
  · rw [hR]
    split
    · intro h; exact absurd h hcode
    · intro _; rfl

theorem update_path_id_overrides_witness :
    (App.updateRating ⟨emptyDB, sampleDecoder⟩ ⟨[("rating_id", "5")], [], ratingBody⟩).2 =
      [⟨.Exec, updateRatingStmt, [.int 2, .int 0, .text "Some updated rating text", .int 5]⟩] ∧
    (App.updateRating ⟨emptyDB, sampleDecoder⟩ ⟨[("rating_id", "5")], [], ratingBody⟩).1 =
      respondWithJSON StatusOK (.rating ⟨5, 2, 0, "Some updated rating text"⟩) ∧
    (App.updateProduct ⟨emptyDB, sampleDecoder⟩ ⟨[("id", "1")], [], productBody⟩).1 =
      respondWithJSON StatusOK (.product ⟨1, "test product - updated name", 11⟩) :=
  ⟨(update_path_id_overrides ⟨emptyDB, sampleDecoder⟩ ⟨[("id", "1")], [], productBody⟩
      ⟨[("rating_id", "5")], [], ratingBody⟩ 1 5 ⟨99, "test product - updated name", 11⟩
      ⟨99, 2, 0, "Some updated rating text"⟩ (by decide) (by rfl) (by decide)
      (by rfl)).2.2.2.2.1,
   (update_path_id_overrides ⟨emptyDB, sampleDecoder⟩ ⟨[("id", "1")], [], productBody⟩
      ⟨[("rating_id", "5")], [], ratingBody⟩ 1 5 ⟨99, "test product - updated name", 11⟩
      ⟨99, 2, 0, "Some updated rating text"⟩ (by decide) (by rfl) (by decide)
      (by rfl)).2.2.2.2.2.2.1 (by rfl),
   (update_path_id_overrides ⟨emptyDB, sampleDecoder⟩ ⟨[("id", "1")], [], productBody⟩
      ⟨[("rating_id", "5")], [], ratingBody⟩ 1 5 ⟨99, "test product - updated name", 11⟩
      ⟨99, 2, 0, "Some updated rating text"⟩ (by decide) (by rfl) (by decide)
      (by rfl)).2.2.1 (by rfl)⟩

/-- C7: when the body fails to decode, `createProduct` and `createRating`, and for a path
id that parses also `updateProduct` and `updateRating`, answer 400 with the body
`{error: "Invalid request payload"}` and send nothing to the store. -/
theorem invalid_payload (a : App) (preq rreq : Request) (ep er : error)
    (hp : a.json.product preq.Body = .error ep)
    (hr : a.json.rating rreq.Body = .error er) :
    a.createProduct preq = (respondWithError StatusBadRequest "Invalid request payload", []) ∧
    a.createRating rreq = (respondWithError StatusBadRequest "Invalid request payload", []) ∧
    ((Atoi (index preq.Vars "id")).2 = none →
      a.updateProduct preq = (respondWithError StatusBadRequest "Invalid request payload", [])) ∧
    ((Atoi (index rreq.Vars "rating_id")).2 = none →
      a.updateRating rreq = (respondWithError StatusBadRequest "Invalid request payload", [])) ∧
    (respondWithError StatusBadRequest "Invalid request payload").Code = 400 ∧
    (respondWithError StatusBadRequest "Invalid request payload").Body =
      JSON.obj [("error", JSON.str "Invalid request payload")] := by
  refine ⟨?_, ?_, ?_, ?_, rfl, rfl⟩
  · unfold App.createProduct
    rw [hp]
  · unfold App.createRating
    rw [hr]
  · intro h
    unfold App.updateProduct
    split
    · rename_i heq; rw [heq] at h; simp at h
    · simp only [hp]
  · intro h
    unfold App.updateRating
    split
    · rename_i heq; rw [heq] at h; simp at h
    · simp only [hr]

theorem invalid_payload_witness :
    App.createRating ⟨insertDB, sampleDecoder⟩ ⟨[("rating_id", "5")], [], "rating"⟩ =
      (respondWithError StatusBadRequest "Invalid request payload", []) ∧
    App.updateProduct ⟨insertDB, sampleDecoder⟩ ⟨[("id", "1")], [], "product"⟩ =
      (respondWithError StatusBadRequest "Invalid request payload", []) ∧
    App.updateRating ⟨insertDB, sampleDecoder⟩ ⟨[("rating_id", "5")], [], "rating"⟩ =
      (respondWithError StatusBadRequest "Invalid request payload", []) :=
  ⟨(invalid_payload ⟨insertDB, sampleDecoder⟩ ⟨[("id", "1")], [], "product"⟩
      ⟨[("rating_id", "5")], [], "rating"⟩
      (.other "invalid character") (.other "invalid character") (by rfl) (by rfl)).2.1,
   (invalid_payload ⟨insertDB, sampleDecoder⟩ ⟨[("id", "1")], [], "product"⟩
      ⟨[("rating_id", "5")], [], "rating"⟩
      (.other "invalid character") (.other "invalid character") (by rfl) (by rfl)).2.2.1
      (by decide),
   (invalid_payload ⟨insertDB, sampleDecoder⟩ ⟨[("id", "1")], [], "product"⟩
      ⟨[("rating_id", "5")], [], "rating"⟩
      (.other "invalid character") (.other "invalid character") (by rfl) (by rfl)).2.2.2.1
      (by decide)⟩

/-- C8: for a path id that parses, when the delete statement raises no error,
`deleteProduct` and `deleteRating` answer 200 with the body `{result: "success"}`, whatever
the number of rows the statement affected, zero included. -/
theorem delete_success (a : App) (preq rreq : Request) (pid rid : Int) (pres rres : Result)
    (hp : Atoi (index preq.Vars "id") = (pid, none))
    (hpx : a.DB.Exec deleteProductStmt [.int pid] = .ok pres)
    (hr : Atoi (index rreq.Vars "rating_id") = (rid, none))
    (hrx : a.DB.Exec deleteRatingStmt [.int rid] = .ok rres) :
    a.deleteProduct preq =
      (respondWithJSON StatusOK (.strings [("result", "success")]),
        [⟨.Exec, deleteProductStmt, [.int pid]⟩]) ∧
    a.deleteRating rreq =
      (respondWithJSON StatusOK (.strings [("result", "success")]),
        [⟨.Exec, deleteRatingStmt, [.int rid]⟩]) ∧
    (respondWithJSON StatusOK (.strings [("result", "success")])).Code = 200 ∧
    (respondWithJSON StatusOK (.strings [("result", "success")])).Body =
      JSON.obj [("result", JSON.str "success")] := by
  refine ⟨?_, ?_, rfl, rfl⟩
  · unfold App.deleteProduct
    rw [hp]
    simp only [product.deleteProduct, hpx]
  · unfold App.deleteRating
    rw [hr]
    simp only [rating.deleteRating, hrx]

theorem delete_success_witness :
    emptyDB.Exec deleteRatingStmt [.int 1] = .ok ⟨0⟩ ∧
    (App.deleteRating ⟨emptyDB, zeroDecoder⟩ ⟨[("rating_id", "1")], [], ""⟩).1 =
      respondWithJSON StatusOK (.strings [("result", "success")]) ∧
    (App.deleteProduct ⟨emptyDB, zeroDecoder⟩ ⟨[("id", "1")], [], ""⟩).1 =
      respondWithJSON StatusOK (.strings [("result", "success")]) :=
  ⟨rfl,
   congrArg Prod.fst (delete_success ⟨emptyDB, zeroDecoder⟩ ⟨[("id", "1")], [], ""⟩
      ⟨[("rating_id", "1")], [], ""⟩ 1 1 ⟨0⟩ ⟨0⟩ (by decide) rfl (by decide) rfl).2.1,
   congrArg Prod.fst (delete_success ⟨emptyDB, zeroDecoder⟩ ⟨[("id", "1")], [], ""⟩
      ⟨[("rating_id", "1")], [], ""⟩ 1 1 ⟨0⟩ ⟨0⟩ (by decide) rfl (by decide) rfl).1⟩

/-- C9: when the body decodes to `b` and the insert succeeds with the store-assigned id
`n`, `createRating` answers 201 with the rating whose `rating_id` is `n`, whatever
`rating_id` the body had, and whose `product_id`, `rating` and `rating_text` are those
of `b`. -/
theorem createRating_created (a : App) (req : Request) (b : rating) (n : Int)
    (rest : List (List Value)) (err : Option error)
    (hb : a.json.rating req.Body = .ok b)
    (hq : a.DB.QueryRow createRatingStmt [.int b.ProductId, .int b.Rating, .text b.Text] =
      .ok ⟨[.int n] :: rest, err, none⟩) :
    a.createRating req =
      (respondWithJSON StatusCreated (.rating ⟨n, b.ProductId, b.Rating, b.Text⟩),
        [⟨.QueryRow, createRatingStmt, [.int b.ProductId, .int b.Rating, .text b.Text]⟩]) ∧
    (a.createRating req).1.Code = 201 ∧
    (a.createRating req).1.Body =
      JSON.obj [("rating_id", .int n), ("product_id", .int b.ProductId),
        ("rating", .int b.Rating), ("rating_text", .str b.Text)] := by
  have h : a.createRating req =
      (respondWithJSON StatusCreated (.rating ⟨n, b.ProductId, b.Rating, b.Text⟩),
        [⟨.QueryRow, createRatingStmt, [.int b.ProductId, .int b.Rating, .text b.Text]⟩]) := by
    unfold App.createRating
    rw [hb]
    simp only [rating.createRating, hq, Row.Scan, scanRatingId]
  rw [h]
  exact ⟨rfl, rfl, rfl⟩

theorem createRating_created_witness :
    (App.createRating ⟨insertDB, sampleDecoder⟩ ⟨[], [], ratingBody⟩).1 =
      respondWithJSON StatusCreated (.rating ⟨7, 2, 0, "Some updated rating text"⟩) :=
  congrArg Prod.fst (createRating_created ⟨insertDB, sampleDecoder⟩ ⟨[], [], ratingBody⟩
    ⟨99, 2, 0, "Some updated rating text"⟩ 7 [] none (by rfl) rfl).1

/-- C10: for every product id, start and count, when the query of `getRatingsForProduct`
succeeds without rows, the function returns the empty non-nil slice and no error, and
the handler answers 200 with the body `[]`, which is not `null`. -/
theorem getRatingsForProduct_empty (a : App) (req : Request) (productId start count : Int)
    (closeErr closeErr' : Option error)
    (hq : a.DB.Query getRatingsForProductStmt [.int productId, .int count, .int start] =
      .ok ⟨[], none, closeErr⟩)
    (hreq : a.DB.Query getRatingsForProductStmt
      [.int (Atoi (index req.Vars "product_id")).1,
       .int (clampCount (Atoi (req.FormValue "count")).1),
       .int (clampStart (Atoi (req.FormValue "start")).1)] = .ok ⟨[], none, closeErr'⟩) :
    (getRatingsForProduct a.DB productId start count).1 = (some [], none) ∧
    (a.getRatingsForProduct req).1 = respondWithJSON StatusOK (.ratings (some [])) ∧
    (a.getRatingsForProduct req).1.Code = 200 ∧
    (a.getRatingsForProduct req).1.Body = JSON.arr [] ∧
    (a.getRatingsForProduct req).1.Body ≠ JSON.null := by
  have h1 : (getRatingsForProduct a.DB productId start count).1 = (some [], none) := by
    simp only [getRatingsForProduct, hq, scanRatings]
  have h2 : (a.getRatingsForProduct req).1 = respondWithJSON StatusOK (.ratings (some [])) := by
    unfold App.getRatingsForProduct
    simp only [getRatingsForProduct, hreq, scanRatings]
  refine ⟨h1, h2, ?_, ?_, ?_⟩
  · rw [h2]; rfl
  · rw [h2]; rfl
  · rw [h2]; simp [respondWithJSON, Marshal]

theorem getRatingsForProduct_empty_witness :
    (getRatingsForProduct emptyDB 1 0 10).1 = (some [], none) ∧
    (App.getRatingsForProduct ⟨emptyDB, zeroDecoder⟩ ⟨[("product_id", "1")], [], ""⟩).1.Body =
      JSON.arr [] :=
  ⟨(getRatingsForProduct_empty ⟨emptyDB, zeroDecoder⟩ ⟨[("product_id", "1")], [], ""⟩ 1 0 10
      none none rfl rfl).1,
   (getRatingsForProduct_empty ⟨emptyDB, zeroDecoder⟩ ⟨[("product_id", "1")], [], ""⟩ 1 0 10
      none none rfl rfl).2.2.2.1⟩

/-- A failure of the query itself, or of scanning a row, ends `getRatingsForProduct` with
that error, and the handler answers 500 with its message. -/
theorem getRatingsForProduct_error_reported (a : App) (req : Request) (e : error)
    (h : (getRatingsForProduct a.DB (Atoi (index req.Vars "product_id")).1
      (clampStart (Atoi (req.FormValue "start")).1)
      (clampCount (Atoi (req.FormValue "count")).1)).1.2 = some e) :
    (a.getRatingsForProduct req).1 = respondWithError StatusInternalServerError e.Error := by
  unfold App.getRatingsForProduct
  simp only []
  split
  · rename_i err log heq
    rw [heq] at h
    simp only [Option.some.injEq] at h
    rw [h]
  · rename_i rs log heq
    rw [heq] at h
    simp at h

/-- C11: when the query of `getRatingsForProduct` succeeds and the reading of its rows
ends with the failure `e` (`Err()` of the rows is `e`), the function never looks at `e`:
with rows that scan to `rs` the handler answers 200 with `rs`, not 500 with the message
of `e`. -/
theorem getRatingsForProduct_rows_error_dropped (a : App) (req : Request)
    (items : List (List Value)) (e : error) (closeErr : Option error) (rs : Slice rating)
    (hq : a.DB.Query getRatingsForProductStmt
      [.int (Atoi (index req.Vars "product_id")).1,
       .int (clampCount (Atoi (req.FormValue "count")).1),
       .int (clampStart (Atoi (req.FormValue "start")).1)] = .ok ⟨items, some e, closeErr⟩)
    (hs : scanRatings items [] = (rs, none)) :
    (a.getRatingsForProduct req).1 = respondWithJSON StatusOK (.ratings rs) ∧
    (a.getRatingsForProduct req).1.Code = 200 ∧
    (a.getRatingsForProduct req).1 ≠ respondWithError StatusInternalServerError e.Error := by
  have h : (a.getRatingsForProduct req).1 = respondWithJSON StatusOK (.ratings rs) := by
    unfold App.getRatingsForProduct
    simp only [getRatingsForProduct, hq, hs]
  refine ⟨h, by rw [h]; rfl, ?_⟩
  rw [h]
  intro hne
  have hc : StatusOK = StatusInternalServerError := congrArg Response.Code hne
  exact absurd hc (by decide)

theorem getRatingsForProduct_rows_error_dropped_witness :
    brokenRowsDB.Query getRatingsForProductStmt [.int 1, .int 10, .int 0] =
      .ok ⟨[[.int 1, .int 1, .int 7, .text "ok"]], some (.other "driver: bad connection"), none⟩ ∧
    (App.getRatingsForProduct ⟨brokenRowsDB, zeroDecoder⟩ ⟨[("product_id", "1")], [], ""⟩).1 =
      respondWithJSON StatusOK (.ratings (some [⟨1, 1, 7, "ok"⟩])) :=
  ⟨rfl,
   (getRatingsForProduct_rows_error_dropped ⟨brokenRowsDB, zeroDecoder⟩
      ⟨[("product_id", "1")], [], ""⟩ [[.int 1, .int 1, .int 7, .text "ok"]]
      (.other "driver: bad connection") none (some [⟨1, 1, 7, "ok"⟩]) rfl rfl).1⟩

end CIUebung02
